import Mathlib

set_option maxRecDepth 100000

/-
  Verification of the cid-router repository.

  Shallow embedding of the data model and operations of the cid-router
  gateway: the BLAKE3 hash used on the ingestion path, CID construction and
  base32 rendering, the CID filter algebra, the route model and builder, the
  SQLite-backed route index, the provider contract, and the v1 HTTP API
  handlers.  Each definition is translated from the Rust source file named
  in its doc comment.
-/

namespace CidRouter

/-! ### 32-bit word arithmetic (Rust u32 semantics, `wrapping_add`, `^`, `rotate_right`) -/

/-- Wrapping 32-bit addition. -/
def add32 (a b : Nat) : Nat := (a + b) % 4294967296

/-- Bitwise xor; operands below two to the 32 stay below it. -/
def xor32 (a b : Nat) : Nat := Nat.xor a b

/-- Right rotation of a 32-bit word by n bits. -/
def rotr32 (x n : Nat) : Nat :=
  Nat.lor (x / 2 ^ n) ((x % 2 ^ n) * 2 ^ (32 - n)) % 4294967296

/-! ### BLAKE3 (the `blake3` crate as called by `blake3::hash` in
  src/server/src/api/v1/data.rs and src/crps/azure/src/container.rs).

  The embedding implements the single-chunk case (inputs of at most 1024
  bytes, i.e. at most sixteen 64-byte blocks chained through the
  compression function); every input evaluated in this development is far
  below that bound.  Inputs beyond one chunk would use the chunk tree and
  yield a different digest, but every theorem below either evaluates the
  hash on concrete short inputs or uses only the shape of the wrapped CID
  (codec and multihash code), which does not depend on the digest bytes. -/

/-- BLAKE3 initialization vector (the SHA-256 initial words). -/
def blake3IV : List Nat :=
  [0x6A09E667, 0xBB67AE85, 0x3C6EF372, 0xA54FF53A,
   0x510E527F, 0x9B05688C, 0x1F83D9AB, 0x5BE0CD19]

/-- BLAKE3 message word permutation applied between rounds. -/
def blake3Perm : List Nat := [2, 6, 3, 10, 7, 0, 4, 13, 1, 11, 12, 5, 9, 14, 15, 8]

/-- The quarter-round mixing function G of BLAKE3 acting on state positions
  a b c d with message words mx my. -/
def blake3G (st : List Nat) (a b c d mx my : Nat) : List Nat :=
  let sa := add32 (add32 (st.getD a 0) (st.getD b 0)) mx
  let sd := rotr32 (xor32 (st.getD d 0) sa) 16
  let sc := add32 (st.getD c 0) sd
  let sb := rotr32 (xor32 (st.getD b 0) sc) 12
  let sa := add32 (add32 sa sb) my
  let sd := rotr32 (xor32 sd sa) 8
  let sc := add32 sc sd
  let sb := rotr32 (xor32 sb sc) 7
  ((((st.set a sa).set b sb).set c sc).set d sd)

/-- One BLAKE3 round: eight G applications (columns then diagonals). -/
def blake3Round (st m : List Nat) : List Nat :=
  let st := blake3G st 0 4 8 12 (m.getD 0 0) (m.getD 1 0)
  let st := blake3G st 1 5 9 13 (m.getD 2 0) (m.getD 3 0)
  let st := blake3G st 2 6 10 14 (m.getD 4 0) (m.getD 5 0)
  let st := blake3G st 3 7 11 15 (m.getD 6 0) (m.getD 7 0)
  let st := blake3G st 0 5 10 15 (m.getD 8 0) (m.getD 9 0)
  let st := blake3G st 1 6 11 12 (m.getD 10 0) (m.getD 11 0)
  let st := blake3G st 2 7 8 13 (m.getD 12 0) (m.getD 13 0)
  blake3G st 3 4 9 14 (m.getD 14 0) (m.getD 15 0)

/-- Permute the sixteen message words by blake3Perm. -/
def blake3Permute (m : List Nat) : List Nat :=
  blake3Perm.map (fun i => m.getD i 0)

/-- Seven rounds of mixing with message permutation in between. -/
def blake3Rounds : Nat → List Nat → List Nat → List Nat
  | 0, st, _ => st
  | n + 1, st, m => blake3Rounds n (blake3Round st m) (blake3Permute m)

/-- The BLAKE3 compression function: chaining value (8 words), message block
  (16 words), 64-bit counter, block length and flags; returns the 8 output
  words state_i xor state_(i+8). -/
def blake3Compress (cv m : List Nat) (counter blockLen flags : Nat) : List Nat :=
  let st := cv ++ blake3IV.take 4 ++
    [counter % 4294967296, counter / 4294967296, blockLen, flags]
  let st := blake3Rounds 7 st m
  (List.range 8).map (fun i => xor32 (st.getD i 0) (st.getD (i + 8) 0))

/-- Split a byte list into blocks of at most 64 bytes, fuelled so that the
  recursion is structural and kernel-reducible; the fuel never runs out
  because each step removes 64 bytes. -/
def blake3BlocksF : Nat → List Nat → List (List Nat)
  | 0, data => [data]
  | fuel + 1, data =>
      if data.length ≤ 64 then [data]
      else data.take 64 :: blake3BlocksF fuel (data.drop 64)

/-- Split a byte list into blocks of at most 64 bytes (an empty input gives
  one empty block, as in the reference implementation). -/
def blake3Blocks (data : List Nat) : List (List Nat) :=
  blake3BlocksF data.length data

/-- Little-endian 32-bit words of a 64-byte-padded block. -/
def blockWords (block : List Nat) : List Nat :=
  (List.range 16).map (fun i =>
    block.getD (4 * i) 0 + block.getD (4 * i + 1) 0 * 256 +
    block.getD (4 * i + 2) 0 * 65536 + block.getD (4 * i + 3) 0 * 16777216)

/-- Chunk state flags. -/
def CHUNK_START : Nat := 1
/-- Chunk state flags. -/
def CHUNK_END : Nat := 2
/-- Chunk state flags. -/
def ROOT : Nat := 8

/-- Chain the blocks of a single chunk through the compression function,
  setting CHUNK_START on the first block and CHUNK_END and ROOT on the last. -/
def blake3Chain (cv : List Nat) (first : Bool) : List (List Nat) → List Nat
  | [] => cv
  | [b] =>
      blake3Compress cv (blockWords b) 0 b.length
        ((if first then CHUNK_START else 0) + CHUNK_END + ROOT)
  | b :: b2 :: rest =>
      blake3Chain
        (blake3Compress cv (blockWords b) 0 b.length
          (if first then CHUNK_START else 0))
        false (b2 :: rest)

/-- Serialize eight 32-bit words as 32 little-endian bytes. -/
def wordsToBytes (ws : List Nat) : List Nat :=
  ws.flatMap (fun w => [w % 256, w / 256 % 256, w / 65536 % 256, w / 16777216 % 256])

/-- BLAKE3 hash (32-byte digest) of a byte list, single-chunk case. -/
def blake3Hash (data : List Nat) : List Nat :=
  wordsToBytes (blake3Chain blake3IV true (blake3Blocks data))

/-! ### CID primitives (src/core/src/cid.rs) -/

/-- Multihash code constants from src/core/src/cid.rs. -/
def mhBLAKE3 : Nat := 0x1e
/-- Multicodec constant raw from src/core/src/cid.rs. -/
def mcRAW : Nat := 0x55
/-- Multicodec constant dag-cbor from src/core/src/cid.rs. -/
def mcDAG_CBOR : Nat := 0x71

/-- Codec enum from src/core/src/cid.rs. -/
inductive Codec
  | raw
  | dagCbor
  | gitRaw
  | blake3HashSeq
  deriving DecidableEq, Repr

/-- Codec::code. -/
def Codec.code : Codec → Nat
  | .raw => 0x55
  | .dagCbor => 0x71
  | .gitRaw => 0x78
  | .blake3HashSeq => 0x80

/-- Codec::to_string. -/
def Codec.str : Codec → String
  | .raw => "raw"
  | .dagCbor => "dag-cbor"
  | .gitRaw => "git-raw"
  | .blake3HashSeq => "blake3-hashseq"

/-- A v1 CID: multicodec, multihash code and digest (the cid crate's
  Cid::new_v1 with Multihash::wrap). -/
structure CidV where
  codec : Nat
  mhCode : Nat
  digest : List Nat
  deriving DecidableEq, Repr

/-- Unsigned varint, fuelled so the recursion is structural; the fuel never
  runs out because dividing by 128 strictly shrinks a number of at least
  128. -/
def varintF : Nat → Nat → List Nat
  | 0, n => [n]
  | fuel + 1, n => if n < 128 then [n] else (n % 128 + 128) :: varintF fuel (n / 128)

/-- Unsigned varint (little-endian base 128), as used in binary CID encoding. -/
def varint (n : Nat) : List Nat :=
  varintF n n

/-- Binary encoding of a v1 CID (Cid::to_bytes): version byte, codec varint,
  multihash code varint, digest length varint, digest. -/
def CidV.toBytes (c : CidV) : List Nat :=
  1 :: varint c.codec ++ varint c.mhCode ++ varint c.digest.length ++ c.digest

/-- The RFC 4648 base32 lowercase alphabet used by multibase b. -/
def base32Alphabet : List Char :=
  ['a','b','c','d','e','f','g','h','i','j','k','l','m','n','o','p',
   'q','r','s','t','u','v','w','x','y','z','2','3','4','5','6','7']

/-- Big-endian bits of one byte. -/
def byteBits (b : Nat) : List Nat :=
  [b / 128 % 2, b / 64 % 2, b / 32 % 2, b / 16 % 2, b / 8 % 2, b / 4 % 2, b / 2 % 2, b % 2]

/-- Group a bit list into 5-bit values, fuelled so the recursion is
  structural; the final group is zero-padded on the right. -/
def bitsToB32F : Nat → List Nat → List Nat
  | 0, _ => []
  | fuel + 1, bits =>
      if bits = [] then []
      else
        let g := bits.take 5 ++ List.replicate (5 - bits.length) 0
        (g.getD 0 0 * 16 + g.getD 1 0 * 8 + g.getD 2 0 * 4 + g.getD 3 0 * 2 +
          g.getD 4 0) :: bitsToB32F fuel (bits.drop 5)

/-- Group a bit list into 5-bit values, final group zero-padded on the right. -/
def bitsToB32 (bits : List Nat) : List Nat :=
  bitsToB32F bits.length bits

/-- Multibase base32-lower string (no padding) of a byte list. -/
def base32Lower (bytes : List Nat) : String :=
  String.mk ((bitsToB32 (bytes.flatMap byteBits)).map
    (fun v => base32Alphabet.getD v 'a'))

/-- String rendering of a v1 CID (Cid::to_string, multibase prefix b plus
  base32-lower of the binary encoding). -/
def CidV.str (c : CidV) : String := "b" ++ base32Lower c.toBytes

/-- blake3_hash_to_cid from src/core/src/cid.rs: wrap a 32-byte BLAKE3
  digest in a multihash with code 0x1e and a v1 CID with the given codec. -/
def blake3HashToCid (digest : List Nat) (codec : Codec) : CidV :=
  { codec := codec.code, mhCode := mhBLAKE3, digest := digest }

/-! ### CID filter algebra (src/core/src/cid_filter.rs) -/

/-- CodeFilter from src/core/src/cid_filter.rs, instantiated at u64. -/
inductive CodeFilter
  | eq (v : Nat)
  | gt (v : Nat)
  | lt (v : Nat)
  | and (fs : List CodeFilter)
  | or (fs : List CodeFilter)
  | not (f : CodeFilter)

mutual

/-- CodeFilter::is_match.  The iterator all and any of the Rust source
  become the mutually recursive list traversals below. -/
def CodeFilter.isMatch : CodeFilter → Nat → Bool
  | .eq v, x => x = v
  | .gt v, x => v < x
  | .lt v, x => x < v
  | .and fs, x => CodeFilter.allMatch fs x
  | .or fs, x => CodeFilter.anyMatch fs x
  | .not f, x => !f.isMatch x

/-- Conjunction over a code filter list (iter().all). -/
def CodeFilter.allMatch : List CodeFilter → Nat → Bool
  | [], _ => true
  | f :: fs, x => f.isMatch x && CodeFilter.allMatch fs x

/-- Disjunction over a code filter list (iter().any). -/
def CodeFilter.anyMatch : List CodeFilter → Nat → Bool
  | [], _ => false
  | f :: fs, x => f.isMatch x || CodeFilter.anyMatch fs x

end

/-- CidFilter from src/core/src/cid_filter.rs. -/
inductive CidFilter
  | nonef
  | multihashCodeFilter (f : CodeFilter)
  | codecFilter (f : CodeFilter)
  | and (fs : List CidFilter)
  | or (fs : List CidFilter)
  | not (f : CidFilter)

mutual

/-- CidFilter::is_match: the None variant matches every CID; the code
  filters look at the multihash code and codec respectively. -/
def CidFilter.isMatch : CidFilter → CidV → Bool
  | .nonef, _ => true
  | .multihashCodeFilter f, c => f.isMatch c.mhCode
  | .codecFilter f, c => f.isMatch c.codec
  | .and fs, c => CidFilter.allMatch fs c
  | .or fs, c => CidFilter.anyMatch fs c
  | .not f, c => !f.isMatch c

/-- Conjunction over a CID filter list (iter().all). -/
def CidFilter.allMatch : List CidFilter → CidV → Bool
  | [], _ => true
  | f :: fs, c => f.isMatch c && CidFilter.allMatch fs c

/-- Disjunction over a CID filter list (iter().any). -/
def CidFilter.anyMatch : List CidFilter → CidV → Bool
  | [], _ => false
  | f :: fs, c => f.isMatch c || CidFilter.anyMatch fs c

end

/-! ### Route model (src/core/src/routes.rs, src/core/src/crp.rs) -/

/-- ProviderType from src/core/src/crp.rs. -/
inductive PT
  | iroh
  | azure
  deriving DecidableEq, Repr

/-- ProviderType::to_string (Display). -/
def PT.str : PT → String
  | .iroh => "iroh"
  | .azure => "azure"

/-- Route from src/core/src/routes.rs.  The snapshot names the locator field
  url in src/core/src/db.rs and route in src/core/src/routes.rs, and the
  codec field multicodec and blob_format respectively; the embedding uses
  url and multicodec, following the database layer the claims are about.
  Timestamps are carried as abstract Nat instants; their RFC3339 rendering
  is injective and never inspected by the operations under study. -/
structure Route where
  id : String
  created_at : Nat
  verified_at : Nat
  provider_id : String
  provider_type : PT
  url : String
  cid : CidV
  size : Nat
  multicodec : Codec
  creator : List Nat
  signature : List Nat
  deriving DecidableEq, Repr

/-- RouteStub from src/core/src/routes.rs: a partial route without cid,
  creator or signature, with optional size and codec. -/
structure RouteStub where
  id : String
  provider_id : String
  provider_type : PT
  created_at : Nat
  verified_at : Nat
  multicodec : Option Codec
  size : Option Nat
  url : String
  deriving DecidableEq, Repr

/-- Signer trait from src/core/src/context.rs: the Context signs with its
  ed25519 secret key; only the public key is observable here because
  sign_route never invokes sign (see signRoute below). -/
structure Signer where
  publicKey : List Nat
  deriving DecidableEq, Repr

/-- sign_route from src/core/src/routes.rs lines 159 to 168: the body is a
  TODO stub that ignores the signer, cid, size, url and codec and returns
  an empty byte vector. -/
def signRoute (_signer : Signer) (_cid : CidV) (_size : Nat) (_url : String)
    (_codec : Codec) : List Nat :=
  []

/-- RouteBuilder from src/core/src/routes.rs. -/
structure RouteBuilder where
  id : String
  provider_id : String
  provider_type : PT
  cid : Option CidV
  size : Option Nat
  url : Option String
  multicodec : Option Codec
  deriving DecidableEq, Repr

/-- RouteBuilder::build_stub: requires the url; size and codec stay optional;
  created_at and verified_at are stamped with now.  The Rust code draws a
  second fresh UUID here; the embedding passes it in as stubId. -/
def RouteBuilder.buildStub (b : RouteBuilder) (stubId : String) (now : Nat) :
    Except String RouteStub :=
  match b.url with
  | none => .error "route is required"
  | some url => .ok
      { id := stubId, provider_id := b.provider_id, provider_type := b.provider_type,
        created_at := now, verified_at := now,
        multicodec := b.multicodec, size := b.size, url := url }

/-- RouteBuilder::build from src/core/src/routes.rs lines 129 to 157:
  requires cid, size, url and codec, signs via sign_route, stamps both
  timestamps with now and takes the creator from the signer. -/
def RouteBuilder.build (b : RouteBuilder) (signer : Signer) (now : Nat) :
    Except String Route :=
  match b.cid, b.size, b.url, b.multicodec with
  | some cid, some size, some url, some mc => .ok
      { id := b.id, created_at := now, verified_at := now,
        provider_id := b.provider_id, provider_type := b.provider_type,
        url := url, cid := cid, size := size, multicodec := mc,
        signature := signRoute signer cid size url mc,
        creator := signer.publicKey }
  | none, _, _, _ => .error "cid is required"
  | _, none, _, _ => .error "size is required"
  | _, _, none, _ => .error "route is required"
  | _, _, _, none => .error "format is required"

/-- RouteStub::builder: a builder that keeps the stub id, provider and url
  and the optional size and codec, so the stub can be completed. -/
def RouteStub.builder (s : RouteStub) : RouteBuilder :=
  { id := s.id, provider_id := s.provider_id, provider_type := s.provider_type,
    cid := none, size := s.size, url := some s.url, multicodec := s.multicodec }

/-! ### Persistence (src/core/src/db.rs).

  The routes table is modelled as a list of rows in rowid (insertion)
  order.  Each row mirrors one SQL row of the schema created in
  Db::create_tables: nullable columns are Option.  The provider_type
  column always holds the Display string of a ProviderType and
  Route::from_sql_row parses it back with FromStr (an exact inverse),
  so the row stores the enum directly.  The CID column holds
  Cid::to_bytes, an injective encoding, so the row stores the CidV value
  directly; SQL blob equality coincides with CidV equality. -/

/-- One row of the routes table. -/
structure SqlRow where
  id : String
  created_at : Nat
  verified_at : Nat
  provider_id : String
  provider_type : PT
  url : String
  cid : Option CidV
  size : Option Nat
  multicodec : Option String
  creator : Option (List Nat)
  signature : Option (List Nat)
  deriving DecidableEq, Repr

/-- Rusqlite errors observable through the embedding: a violated UNIQUE or
  PRIMARY KEY constraint. -/
inductive DbError
  | uniqueViolation
  deriving DecidableEq, Repr

/-- Does adding row r to table db violate the PRIMARY KEY on id, the
  UNIQUE(provider_id, provider_type, cid) constraint or the
  UNIQUE(provider_id, provider_type, url) constraint?  SQLite treats NULL
  as distinct from every value in UNIQUE indexes, so two rows with NULL
  cid never collide on the cid constraint. -/
def rowConflicts (db : List SqlRow) (r : SqlRow) : Bool :=
  db.any (fun q =>
    q.id = r.id ||
    (q.provider_id = r.provider_id && q.provider_type = r.provider_type &&
      q.cid.isSome && q.cid = r.cid) ||
    (q.provider_id = r.provider_id && q.provider_type = r.provider_type &&
      q.url = r.url))

/-- The row written by Db::insert_route (src/core/src/db.rs lines 103 to
  130).  Both the provider_id parameter ?4 and the provider_type parameter
  ?5 are bound to route.provider_type.to_string(); the provider_id field of
  the Route is never bound. -/
def routeRow (r : Route) : SqlRow :=
  { id := r.id, created_at := r.created_at, verified_at := r.verified_at,
    provider_id := r.provider_type.str,
    provider_type := r.provider_type,
    url := r.url, cid := some r.cid, size := some r.size,
    multicodec := some r.multicodec.str,
    creator := some r.creator, signature := some r.signature }

/-- Db::insert_route: INSERT the row of routeRow, surfacing a uniqueness
  violation as an error. -/
def insertRoute (db : List SqlRow) (r : Route) : Except DbError (List SqlRow) :=
  if rowConflicts db (routeRow r) then .error .uniqueViolation
  else .ok (db ++ [routeRow r])

/-- The row written by Db::insert_stub (src/core/src/db.rs lines 296 to
  322): NULL cid, creator and signature; here provider_id is bound to the
  stub's provider_id field. -/
def stubRow (s : RouteStub) : SqlRow :=
  { id := s.id, created_at := s.created_at, verified_at := s.verified_at,
    provider_id := s.provider_id, provider_type := s.provider_type,
    url := s.url, cid := none, size := s.size,
    multicodec := s.multicodec.map Codec.str,
    creator := none, signature := none }

/-- Db::insert_stub. -/
def insertStub (db : List SqlRow) (s : RouteStub) : Except DbError (List SqlRow) :=
  if rowConflicts db (stubRow s) then .error .uniqueViolation
  else .ok (db ++ [stubRow s])

/-- The row resulting from Db::complete_stub applied to an existing row
  (src/core/src/db.rs lines 324 to 349): UPDATE keyed by id sets
  verified_at and all content columns; created_at and the id keep their
  stored values.  Unlike insert_route, provider_id is bound to the route's
  provider_id field. -/
def completedRow (old : SqlRow) (r : Route) : SqlRow :=
  { id := old.id, created_at := old.created_at, verified_at := r.verified_at,
    provider_id := r.provider_id, provider_type := r.provider_type,
    url := r.url, cid := some r.cid, size := some r.size,
    multicodec := some r.multicodec.str,
    creator := some r.creator, signature := some r.signature }

/-- Db::complete_stub: UPDATE routes SET ... WHERE id = route.id.  Updating
  zero rows succeeds; an update that would break a UNIQUE constraint
  against another row errors and leaves the table unchanged. -/
def completeStub (db : List SqlRow) (r : Route) : Except DbError (List SqlRow) :=
  let updated := db.map (fun q => if q.id = r.id then completedRow q r else q)
  let conflict := updated.any (fun q =>
    q.id ≠ r.id &&
    ((q.provider_id = r.provider_id && q.provider_type = r.provider_type &&
        q.cid.isSome && q.cid = some r.cid) ||
      (q.provider_id = r.provider_id && q.provider_type = r.provider_type &&
        q.url = r.url)))
  if db.any (fun q => q.id = r.id) && conflict then .error .uniqueViolation
  else .ok updated

/-- Route::from_sql_row (src/core/src/routes.rs lines 36 to 68) applied to
  a row: the cid, size, creator and signature columns are unwrapped (every
  row this is applied to has them non-NULL, because the SELECTs producing
  Routes filter on cid IS NOT NULL and completed rows carry the crypto
  columns); the multicodec column is parsed with a fallback to raw. -/
def rowToRoute (q : SqlRow) : Route :=
  { id := q.id, created_at := q.created_at, verified_at := q.verified_at,
    provider_id := q.provider_id, provider_type := q.provider_type,
    url := q.url,
    cid := q.cid.getD { codec := 0, mhCode := 0, digest := [] },
    size := q.size.getD 0,
    multicodec := if q.multicodec = some "HashSeq" then .blake3HashSeq else .raw,
    creator := q.creator.getD [], signature := q.signature.getD [] }

/-- RouteStub::from_sql_row (src/core/src/routes.rs lines 202 to 218):
  reads id, timestamps, provider and url from the row and sets size and
  blob_format to None unconditionally (the TODO in the source notes the
  size and blob format are not captured). -/
def rowToStub (q : SqlRow) : RouteStub :=
  { id := q.id, created_at := q.created_at, verified_at := q.verified_at,
    provider_id := q.provider_id, provider_type := q.provider_type,
    size := none, multicodec := none, url := q.url }

/-- Direction from src/core/src/db.rs. -/
inductive Direction
  | asc
  | desc
  deriving DecidableEq, Repr

/-- Direction::from_str accepts exactly the two uppercase spellings. -/
def Direction.fromStr (s : String) : Except String Direction :=
  if s = "ASC" then .ok .asc
  else if s = "DESC" then .ok .desc
  else .error ("Invalid direction: " ++ s)

/-- OrderBy from src/core/src/db.rs. -/
inductive OrderBy
  | createdAt (d : Direction)
  | size (d : Direction)
  deriving DecidableEq, Repr

/-- Apply a LIMIT/OFFSET pair the way SQLite does: the offset skips rows
  (a negative offset skips none) and a negative limit means unbounded. -/
def applyLimitOffset (rows : List SqlRow) (offset limit : Int) : List SqlRow :=
  let rows := rows.drop offset.toNat
  if limit < 0 then rows else rows.take limit.toNat

/-- Db::list_routes (src/core/src/db.rs lines 132 to 156): SELECT rows with
  cid IS NOT NULL, ORDER BY ?1 DESC, LIMIT ?2 OFFSET ?3.  The order_by is
  bound as a statement parameter, so SQLite orders by a constant value:
  the clause imposes no ordering and rows come back in table order.  The
  order_by argument is therefore accepted and ignored. -/
def listRoutes (db : List SqlRow) (_orderBy : OrderBy) (offset limit : Int) :
    List Route :=
  (applyLimitOffset (db.filter (fun q => q.cid.isSome)) offset limit).map rowToRoute

/-- Db::list_provider_routes (src/core/src/db.rs lines 158 to 184): as
  list_routes but additionally filtered on provider_id = ?1; ORDER BY ?2 is
  again a bound parameter, hence a constant with no ordering effect. -/
def listProviderRoutes (db : List SqlRow) (providerId : String)
    (_orderBy : OrderBy) (offset limit : Int) : List Route :=
  (applyLimitOffset
    (db.filter (fun q => q.cid.isSome && q.provider_id = providerId))
    offset limit).map rowToRoute

/-- Db::routes_for_cid (src/core/src/db.rs lines 202 to 219): SELECT rows
  with cid = ?1 AND cid IS NOT NULL LIMIT 1, mapped through
  Route::from_sql_row.  The LIMIT 1 caps the result at a single route. -/
def routesForCid (db : List SqlRow) (c : CidV) : List Route :=
  ((db.filter (fun q => q.cid = some c)).take 1).map rowToRoute

/-- Db::routes_for_url (src/core/src/db.rs lines 221 to 238): SELECT rows
  with url = ?1 AND cid IS NOT NULL LIMIT 1. -/
def routesForUrl (db : List SqlRow) (url : String) : List Route :=
  ((db.filter (fun q => q.url = url && q.cid.isSome)).take 1).map rowToRoute

/-- Db::all_routes (src/core/src/db.rs lines 240 to 265): as list_routes
  (ORDER BY ?1 is a bound parameter, no ordering effect). -/
def allRoutes (db : List SqlRow) (_orderBy : OrderBy) (offset limit : Int) :
    List Route :=
  (applyLimitOffset (db.filter (fun q => q.cid.isSome)) offset limit).map rowToRoute

/-- Db::list_provider_stubs (src/core/src/db.rs lines 268 to 294): SELECT
  rows with provider_id = ?1 ORDER BY ?2 LIMIT ?3 OFFSET ?4, mapped through
  RouteStub::from_sql_row.  The WHERE clause has no cid IS NULL condition,
  so completed rows are returned too, and ORDER BY ?2 is a bound parameter
  with no ordering effect. -/
def listProviderStubs (db : List SqlRow) (providerId : String)
    (_orderBy : OrderBy) (offset limit : Int) : List RouteStub :=
  (applyLimitOffset (db.filter (fun q => q.provider_id = providerId))
    offset limit).map rowToStub

/-! ### Providers (src/crps/iroh/src/iroh.rs, src/crps/azure/src/container.rs,
  src/server/src/config.rs).

  The server instantiates providers from its config: an Azure blob
  container (crp_azure::Container) or a local Iroh blob store
  (crp_iroh::IrohCrp); crp_iroh::IrohRemoteCrp is the remote-peer variant
  of the same crate. -/

/-- The provider instances constructible in this system. -/
inductive PKind
  | azureContainer (account container : String) (writeable : Bool)
  | irohRemote (allowPut : Bool)
  | irohInline
  deriving DecidableEq, Repr

/-- provider_id(): the Azure container returns its container name; the
  remote Iroh provider returns the literal iroh; the local Iroh store
  returns the literal iroh_inline. -/
def PKind.providerId : PKind → String
  | .azureContainer _ container _ => container
  | .irohRemote _ => "iroh"
  | .irohInline => "iroh_inline"

/-- provider_type(). -/
def PKind.providerType : PKind → PT
  | .azureContainer _ _ _ => .azure
  | .irohRemote _ => .iroh
  | .irohInline => .iroh

/-- cid_filter(): the Azure container uses CidFilter::None; both Iroh
  variants use MultihashCodeFilter(Eq(0x1e)). -/
def PKind.cidFilter : PKind → CidFilter
  | .azureContainer _ _ _ => .nonef
  | .irohRemote _ => .multihashCodeFilter (.eq 0x1e)
  | .irohInline => .multihashCodeFilter (.eq 0x1e)

/-- provider_is_eligible_for_cid from src/core/src/crp.rs: the default
  trait method evaluates the provider's filter on the CID. -/
def PKind.eligible (p : PKind) (c : CidV) : Bool :=
  p.cidFilter.isMatch c

/-- capabilities().route_resolver presence: all three provider kinds expose
  a byte-stream resolver. -/
def PKind.hasRouteResolver : PKind → Bool
  | _ => true

/-- capabilities().blob_writer presence.  For the Iroh variants this follows
  src/crps/iroh/src/iroh.rs (the remote provider exposes the writer when
  allow_put, the local store always).  Modelled from the spec: the snapshot
  omits the Azure BlobWriter implementation (only the writeable config
  flag, the capability record and the integration test referencing it are
  present), and section 4.4.1 of the specification states put_blob is
  enabled exactly when writeable is true. -/
def PKind.hasBlobWriter : PKind → Bool
  | .azureContainer _ _ writeable => writeable
  | .irohRemote allowPut => allowPut
  | .irohInline => true

/-- put_blob outcome.  Both Iroh writers reject CIDs whose multihash code is
  not BLAKE3 (0x1e) and otherwise store the bytes; transport is abstracted
  as success.  Modelled from the spec for the Azure container: writes the
  object under the CID string and succeeds. -/
def PKind.putBlob (p : PKind) (c : CidV) : Except String Unit :=
  match p with
  | .azureContainer _ _ _ => .ok ()
  | .irohRemote allowPut =>
      if !allowPut then .error "Put operations are not allowed on this CRP"
      else if c.mhCode ≠ 0x1e then
        .error "Unsupported CID hash code; only blake3 is supported"
      else .ok ()
  | .irohInline =>
      if c.mhCode ≠ 0x1e then
        .error "Unsupported CID hash code; only blake3 is supported"
      else .ok ()

/-! ### Ingestion (create_data, src/server/src/api/v1/data.rs lines 116 to
  209; the handler mounted in src/server/src/api.rs has the same body). -/

/-- API-level errors of the ingestion handler. -/
inductive ApiErr
  | unsupportedMediaType
  | serviceUnavailable
  | db (e : DbError)
  | build (msg : String)
  deriving DecidableEq, Repr

/-- The JSON body of a successful POST /v1/data. -/
structure CreateDataResponse where
  cid : String
  size : Nat
  location : String
  deriving DecidableEq, Repr

/-- Content-Type negotiation of create_data: absent, octet-stream and
  form-urlencoded map to raw, dag-cbor to DagCbor; anything else is a 415. -/
def contentTypeCodec : Option String → Option Codec
  | none => some .raw
  | some "application/x-www-form-urlencoded" => some .raw
  | some "application/octet-stream" => some .raw
  | some "application/vnd.ipld.dag-cbor" => some .dagCbor
  | some _ => none

/-- The CID computed by create_data for a request body under a supported
  content type: BLAKE3 of the buffered body wrapped by blake3_hash_to_cid. -/
def ingestCid (codec : Codec) (body : List Nat) : CidV :=
  blake3HashToCid (blake3Hash body) codec

/-- Result of an ingestion call: the HTTP-level outcome, the resulting
  table state, and the providers that received a put_blob dispatch. -/
structure IngestResult where
  response : Except ApiErr CreateDataResponse
  db : List SqlRow
  puts : List PKind

/-- The route insertion loop of create_data: for every successful put the
  handler builds a Route via Route::builder(provider).cid(cid)
  .multicodec(Raw).size(len).url(cid.to_string()).build(signer) and inserts
  it; the question-mark operator aborts the loop on the first build or
  insert error while keeping earlier inserts. -/
def ingestInsertLoop (signer : Signer) (now : Nat) (c : CidV) (bodyLen : Nat)
    (freshIds : Nat → String) :
    List (PKind × Except String Unit) → Nat → List SqlRow →
    Except ApiErr Unit × List SqlRow
  | [], _, db => (.ok (), db)
  | (p, res) :: rest, i, db =>
      match res with
      | .error _ => ingestInsertLoop signer now c bodyLen freshIds rest (i + 1) db
      | .ok _ =>
          let b : RouteBuilder :=
            { id := freshIds i, provider_id := p.providerId,
              provider_type := p.providerType,
              cid := some c, size := some bodyLen,
              url := some c.str, multicodec := some .raw }
          match b.build signer now with
          | .error msg => (.error (.build msg), db)
          | .ok route =>
              match insertRoute db route with
              | .error e => (.error (.db e), db)
              | .ok db2 =>
                  ingestInsertLoop signer now c bodyLen freshIds rest (i + 1) db2

/-- The writers selected by create_data: providers eligible for the CID
  that expose a blob writer. -/
def ingestWriters (ps : List PKind) (c : CidV) : List PKind :=
  ps.filter (fun p => p.eligible c && p.hasBlobWriter)

/-- The writers create_data actually dispatches put_blob to: the selected
  writers minus those whose provider_id already appears among the stored
  routes for the CID. -/
def ingestAttempts (ps : List PKind) (db : List SqlRow) (c : CidV) : List PKind :=
  (ingestWriters ps c).filter (fun p =>
    !((routesForCid db c).map Route.provider_id).contains p.providerId)

/-- create_data: negotiate the content type, hash the body into a CID,
  select the providers that are eligible for the CID and expose a blob
  writer (503 when none), skip writers whose provider_id already appears
  among the stored routes for the CID, dispatch put_blob to the rest, and
  insert a Route for every successful put. -/
def createData (ps : List PKind) (db : List SqlRow) (contentType : Option String)
    (body : List Nat) (signer : Signer) (freshIds : Nat → String) (now : Nat) :
    IngestResult :=
  match contentTypeCodec contentType with
  | none => { response := .error .unsupportedMediaType, db := db, puts := [] }
  | some codec =>
    let c := ingestCid codec body
    if (ingestWriters ps c).isEmpty then
      { response := .error .serviceUnavailable, db := db, puts := [] }
    else
      let attempts := ingestAttempts ps db c
      let outcome := attempts.map (fun p => (p, p.putBlob c))
      let (res, db2) :=
        ingestInsertLoop signer now c body.length freshIds outcome 0 db
      { response := res.map (fun _ =>
          { cid := c.str, size := body.length,
            location := "/v1/data/" ++ c.str }),
        db := db2, puts := attempts }

/-! ### Resolution (get_data, src/server/src/api/v1/data.rs lines 38 to 92). -/

/-- The byte-stream dispatches performed by get_data for a CID: the handler
  walks the routes returned by routes_for_cid; for the first route whose
  provider matches on provider_id and provider_type and exposes a route
  resolver it dispatches get_bytes and returns, so at most one provider is
  dispatched; routes whose provider is absent, or matches but lacks the
  resolver capability, are passed over. -/
def getDataDispatchLoop (ps : List PKind) : List Route → List PKind
  | [] => []
  | r :: rest =>
      match ps.find? (fun p =>
          r.provider_id = p.providerId && r.provider_type = p.providerType) with
      | some p => if p.hasRouteResolver then [p] else getDataDispatchLoop ps rest
      | none => getDataDispatchLoop ps rest

/-- Providers receiving a get_bytes dispatch when GET /v1/data/(cid) is
  served against table state db. -/
def getDataDispatch (ps : List PKind) (db : List SqlRow) (c : CidV) : List PKind :=
  getDataDispatchLoop ps (routesForCid db c)

/-! ### Reindexing (src/crps/azure/src/container.rs).

  Container::reindex runs the discovery phase and then the hashing phase;
  the Iroh providers' reindex is a no-op.  Discovery is modelled over an
  arbitrary listing of (name, size) pairs, which subsumes whatever the
  container's BlobFilter lets through. -/

/-- Container::blob_to_route_url. -/
def blobUrl (account container name : String) : String :=
  "https://" ++ account ++ ".blob.core.windows.net/" ++ container ++ "/" ++ name

/-- The loop of Container::add_stubs_for_missing_blobs: for every listed
  blob whose URL has no completed route, build a stub with the listed size
  and codec raw and insert it; the question-mark operator aborts the phase
  on the first insert error, keeping earlier inserts.  Note the existence
  check goes through routes_for_url, which skips rows with NULL cid, so an
  existing stub for the URL does not suppress the insert and the insert
  then fails on the URL uniqueness constraint. -/
def discoverLoop (account container : String) (ids : Nat → String) (now : Nat) :
    List (String × Nat) → Nat → List SqlRow → List SqlRow
  | [], _, db => db
  | (name, size) :: rest, i, db =>
      let url := blobUrl account container name
      if (routesForUrl db url).isEmpty then
        let b : RouteBuilder :=
          { id := ids (2 * i), provider_id := container, provider_type := .azure,
            cid := none, size := some size, url := some url,
            multicodec := some .raw }
        match b.buildStub (ids (2 * i + 1)) now with
        | .error _ => db
        | .ok stub =>
            match insertStub db stub with
            | .error _ => db
            | .ok db2 => discoverLoop account container ids now rest (i + 1) db2
      else discoverLoop account container ids now rest (i + 1) db

/-- Discovery phase of reindex for a provider (no-op for the Iroh kinds,
  whose reindex body is a TODO returning Ok). -/
def reindexDiscover (p : PKind) (blobs : List (String × Nat))
    (ids : Nat → String) (now : Nat) (db : List SqlRow) : List SqlRow :=
  match p with
  | .azureContainer account container _ =>
      discoverLoop account container ids now blobs 0 db
  | _ => db

/-- One step of Container::update_blob_index_hashes: hash the object bytes
  (the empty input when the stub's size is zero, else the streamed content,
  abstracted by the content oracle keyed by the stored locator), wrap the
  digest as a raw BLAKE3 CID and complete the stub's builder with it. -/
def hashStubRoute (content : String → List Nat) (signer : Signer) (now : Nat)
    (stub : RouteStub) : Except String Route :=
  let data := if stub.size = some 0 then [] else content stub.url
  let c := blake3HashToCid (blake3Hash data) .raw
  RouteBuilder.build { stub.builder with cid := some c } signer now

/-- The loop of Container::update_blob_index_hashes: build the completed
  route for each stub and call complete_stub; the question-mark operator
  aborts the phase on the first build or database error. -/
def hashLoop (content : String → List Nat) (signer : Signer) (now : Nat) :
    List RouteStub → List SqlRow → List SqlRow
  | [], db => db
  | stub :: rest, db =>
      match hashStubRoute content signer now stub with
      | .error _ => db
      | .ok route =>
          match completeStub db route with
          | .error _ => db
          | .ok db2 => hashLoop content signer now rest db2

/-- Hashing phase of reindex for a provider: list the provider's stubs
  (order_by size ascending, offset 0, limit -1) and run the completion
  loop; no-op for the Iroh kinds. -/
def reindexHash (p : PKind) (content : String → List Nat) (signer : Signer)
    (now : Nat) (db : List SqlRow) : List SqlRow :=
  match p with
  | .azureContainer _ container _ =>
      hashLoop content signer now
        (listProviderStubs db container (.size .asc) 0 (-1)) db
  | _ => db

/-! ### Reachable system states.

  A table state is reachable when it arises from the empty table by any
  interleaving of API ingestions and per-provider reindex phases, over any
  request bodies, content types, blob listings, streamed contents, signer,
  fresh identifiers and clock values. -/

/-- Reachability of a table state for a fixed provider configuration. -/
inductive Reach (ps : List PKind) : List SqlRow → Prop
  | nil : Reach ps []
  | ingest (db : List SqlRow) (contentType : Option String) (body : List Nat)
      (signer : Signer) (freshIds : Nat → String) (now : Nat) :
      Reach ps db →
      Reach ps (createData ps db contentType body signer freshIds now).db
  | discover (db : List SqlRow) (p : PKind) (hp : p ∈ ps)
      (blobs : List (String × Nat)) (ids : Nat → String) (now : Nat) :
      Reach ps db → Reach ps (reindexDiscover p blobs ids now db)
  | hash (db : List SqlRow) (p : PKind) (hp : p ∈ ps)
      (content : String → List Nat) (signer : Signer) (now : Nat) :
      Reach ps db → Reach ps (reindexHash p content signer now db)

/-- Decidable equality on Except values, used by the evaluation theorems. -/
instance exceptDecEq {α β : Type} [DecidableEq α] [DecidableEq β] :
    DecidableEq (Except α β) := fun a b =>
  match a, b with
  | .ok x, .ok y =>
      if h : x = y then .isTrue (by rw [h]) else .isFalse (by simp [h])
  | .error x, .error y =>
      if h : x = y then .isTrue (by rw [h]) else .isFalse (by simp [h])
  | .ok _, .error _ => .isFalse (by simp)
  | .error _, .ok _ => .isFalse (by simp)

/-! ### Server route-listing handler (src/server/src/api/v1/routes.rs). -/

/-- The direction parsing of the list_routes handler (src/server/src/api/v1/
  routes.rs lines 87 to 99): the query parameter defaults to DESC when
  absent and is then passed to Direction::from_str, whose result the
  handler unwraps; an error value here is the panic of that unwrap. -/
def listRoutesDirection (q : Option String) : Except String Direction :=
  Direction.fromStr (q.getD "DESC")

/-! ### Concrete fixtures used by the evaluation theorems below. -/

/-- A concrete signer standing in for the repository's ed25519 context key. -/
def sgW : Signer := { publicKey := List.replicate 32 7 }

/-- A fresh-identifier supply for first requests. -/
def fidW : Nat → String := fun i => "id" ++ toString i

/-- A fresh-identifier supply for second requests. -/
def fidW2 : Nat → String := fun i => "jd" ++ toString i

/-- The byte sequence of the integration test body (this is duplicate test
  data, src/cid-router-server/tests/integration.rs line 124). -/
def dupBody : List Nat :=
  (String.toList "this is duplicate test data").map Char.toNat

/-- The CID create_data computes for dupBody without a content type. -/
def cDup : CidV := ingestCid .raw dupBody

/-- Ingestion of dupBody into an empty table with the local Iroh provider. -/
def ingestInline1 : IngestResult :=
  createData [PKind.irohInline] [] none dupBody sgW fidW 0

/-- Second ingestion of dupBody against the resulting table. -/
def ingestInline2 : IngestResult :=
  createData [PKind.irohInline] ingestInline1.db none dupBody sgW fidW2 1

/-- Ingestion of dupBody with the remote Iroh provider (whose provider_id
  string happens to coincide with its provider_type string). -/
def ingestRemote1 : IngestResult :=
  createData [PKind.irohRemote true] [] none dupBody sgW fidW 0

/-- Two stubs of an Azure container named blobs, sizes 5 and 3. -/
def stubU1 : RouteStub :=
  { id := "s1", provider_id := "blobs", provider_type := .azure,
    created_at := 0, verified_at := 0, multicodec := some .raw,
    size := some 5, url := "u1" }

/-- Two stubs of an Azure container named blobs, sizes 5 and 3. -/
def stubU2 : RouteStub :=
  { id := "s2", provider_id := "blobs", provider_type := .azure,
    created_at := 0, verified_at := 0, multicodec := some .raw,
    size := some 3, url := "u2" }

/-- A completed route for stubU1. -/
def routeU1 : Route :=
  { id := "s1", created_at := 0, verified_at := 1, provider_id := "blobs",
    provider_type := .azure, url := "u1",
    cid := { codec := 0x55, mhCode := 0x1e, digest := List.replicate 32 4 },
    size := 5, multicodec := .raw, creator := sgW.publicKey, signature := [] }

/-- A completed route for stubU2. -/
def routeU2 : Route :=
  { id := "s2", created_at := 0, verified_at := 1, provider_id := "blobs",
    provider_type := .azure, url := "u2",
    cid := { codec := 0x55, mhCode := 0x1e, digest := List.replicate 32 5 },
    size := 3, multicodec := .raw, creator := sgW.publicKey, signature := [] }

/-- Table holding the two stubs. -/
def dbStubs2 : List SqlRow := [stubRow stubU1, stubRow stubU2]

/-- Table after both stubs were promoted with complete_stub. -/
def dbDone2 : List SqlRow :=
  [completedRow (stubRow stubU1) routeU1, completedRow (stubRow stubU2) routeU2]

/-- A CID shared by two providers in the C1 counterexample. -/
def cShared : CidV :=
  { codec := 0x55, mhCode := 0x1e, digest := List.replicate 32 9 }

/-- A completed route for cShared held by an Iroh provider. -/
def routeIr : Route :=
  { id := "i1", created_at := 0, verified_at := 0, provider_id := "iroh",
    provider_type := .iroh, url := "w1", cid := cShared, size := 5,
    multicodec := .raw, creator := sgW.publicKey, signature := [] }

/-- A completed route for cShared held by an Azure provider. -/
def routeAz : Route :=
  { id := "a1", created_at := 0, verified_at := 0, provider_id := "blobs",
    provider_type := .azure, url := "w2", cid := cShared, size := 5,
    multicodec := .raw, creator := sgW.publicKey, signature := [] }

/-- Table holding completed routes for the same CID from two providers. -/
def dbTwoProviders : List SqlRow := [routeRow routeIr, routeRow routeAz]

/-- A fully populated route builder. -/
def builderFix : RouteBuilder :=
  { id := "r1", provider_id := "blobs", provider_type := .azure,
    cid := some cShared, size := some 5, url := some "u1",
    multicodec := some .raw }

/-- Second ingestion of dupBody against the remote-Iroh table. -/
def ingestRemote2 : IngestResult :=
  createData [PKind.irohRemote true] ingestRemote1.db none dupBody sgW fidW2 1

/-- Row predicate of the reachability invariant: a row tagged with
  provider_type iroh carries a BLAKE3 (multihash code 0x1e) CID whenever it
  carries one at all. -/
def rowOk (q : SqlRow) : Prop :=
  q.provider_type = PT.iroh → ∀ c, q.cid = some c → c.mhCode = 0x1e

/-- The reachability invariant: every stored row satisfies rowOk. -/
def irohRowsBlake3 (db : List SqlRow) : Prop := ∀ q ∈ db, rowOk q

/-! ### Claim theorems -/

/-- C1, counterexample: two completed routes for the same CID from two
  different providers are stored (both inserts succeed, and both rows carry
  the CID), yet routes_for_cid returns a single route, so the route of the
  second provider does not appear in the returned Vec, contrary to the
  claim. -/
theorem routes_for_cid_misses_second_provider :
    insertRoute [] routeIr = .ok [routeRow routeIr] ∧
    insertRoute [routeRow routeIr] routeAz = .ok dbTwoProviders ∧
    (dbTwoProviders.filter (fun q => q.cid = some cShared)).length = 2 ∧
    (routesForCid dbTwoProviders cShared).length = 1 ∧
    rowToRoute (routeRow routeAz) ∉ routesForCid dbTwoProviders cShared := by
  refine ⟨by decide, by decide, by decide, by decide, by decide⟩

/-- C1, amended: routes_for_cid returns at most one completed route because
  of the LIMIT 1 in its query; every returned route carries the requested
  CID, and whenever a stored row with that CID exists exactly one route is
  returned (the first matching row). -/
theorem routes_for_cid_at_most_one (db : List SqlRow) (c : CidV) :
    (routesForCid db c).length ≤ 1 ∧
    (∀ r ∈ routesForCid db c, r.cid = c) ∧
    ((∃ q ∈ db, q.cid = some c) → (routesForCid db c).length = 1) := by
  refine ⟨?_, ?_, ?_⟩
  · unfold routesForCid
    rw [List.length_map]
    exact List.length_take_le 1 _
  · intro r hr
    unfold routesForCid at hr
    obtain ⟨q, hq, rfl⟩ := List.mem_map.mp hr
    have hq2 := List.mem_of_mem_take hq
    have hp := (List.mem_filter.mp hq2).2
    have hcid : q.cid = some c := by simpa using hp
    simp [rowToRoute, hcid]
  · rintro ⟨q, hq, hcid⟩
    unfold routesForCid
    rw [List.length_map, List.length_take]
    have hmem : q ∈ db.filter (fun q => q.cid = some c) := by
      rw [List.mem_filter]
      exact ⟨hq, by simpa using hcid⟩
    have hne : db.filter (fun q => q.cid = some c) ≠ [] := by
      intro hnil; rw [hnil] at hmem; simp at hmem
    have hpos : 0 < (db.filter (fun q => q.cid = some c)).length :=
      List.length_pos.mpr hne
    omega

/-- C1, witness for the amended theorem at the two-provider table. -/
theorem routes_for_cid_at_most_one_witness :
    (rowToRoute (routeRow routeIr)).cid = cShared ∧
    (routesForCid dbTwoProviders cShared).length = 1 :=
  ⟨(routes_for_cid_at_most_one dbTwoProviders cShared).2.1 _ (by decide),
   (routes_for_cid_at_most_one dbTwoProviders cShared).2.2
     ⟨routeRow routeIr, by decide, by decide⟩⟩

/-- C2: posting the integration-test body twice through the local Iroh
  provider yields the claimed CID on the first request, but the second
  request dispatches put_blob again (because the stored provider_id column
  holds the provider_type string iroh, which differs from the provider's
  id iroh_inline, so the already-indexed skip misses) and then fails with
  a database uniqueness violation that propagates as a fatal error, with
  no new route inserted.  With the remote Iroh provider, whose provider_id
  string coincides with its provider_type string, the second request is
  the no-op success the claim describes. -/
theorem second_ingest_duplicate_fails :
    ingestInline1.response = .ok
      { cid := "bafkr4ia3ivbnhw4ye5lk37jkwb2rf2x5hv2lqiyaxwznyfjpm4sftcipqa",
        size := 27,
        location := "/v1/data/bafkr4ia3ivbnhw4ye5lk37jkwb2rf2x5hv2lqiyaxwznyfjpm4sftcipqa" } ∧
    ingestInline1.db.length = 1 ∧
    ingestInline2.response = .error (.db .uniqueViolation) ∧
    ingestInline2.puts = [PKind.irohInline] ∧
    ingestRemote2.response = .ok
      { cid := "bafkr4ia3ivbnhw4ye5lk37jkwb2rf2x5hv2lqiyaxwznyfjpm4sftcipqa",
        size := 27,
        location := "/v1/data/bafkr4ia3ivbnhw4ye5lk37jkwb2rf2x5hv2lqiyaxwznyfjpm4sftcipqa" } ∧
    ingestRemote2.db = ingestRemote1.db ∧
    ingestRemote2.puts = [] := by
  refine ⟨by decide, by decide, by decide, by decide, by decide, by decide, by decide⟩

/-- C3: every route the builder's build(signer) produces carries the empty
  byte vector as signature, because sign_route is a stub; in particular the
  signature is not a 64-byte ed25519 signature, so it cannot verify under
  the creator key. -/
theorem built_route_signature_empty (b : RouteBuilder) (signer : Signer)
    (now : Nat) (route : Route) (h : b.build signer now = .ok route) :
    route.signature = [] ∧ route.signature.length ≠ 64 := by
  rcases b with ⟨id, pid, pt, cid, size, url, mc⟩
  cases cid <;> cases size <;> cases url <;> cases mc <;>
    simp [RouteBuilder.build, signRoute] at h
  subst h
  exact ⟨rfl, by simp⟩

/-- C3, witness: a concrete successful build whose signature is empty. -/
theorem built_route_signature_empty_witness :
    ∃ route : Route, builderFix.build sgW 0 = .ok route ∧ route.signature = [] :=
  ⟨_, rfl, (built_route_signature_empty builderFix sgW 0 _ rfl).1⟩

/-- C4: insert_route binds route.provider_type.to_string() to the
  provider_id column, so the stored and read-back provider_id is the
  provider_type string, and a route whose provider_id differs from that
  string is not recoverable under its original provider_id; concretely,
  after ingesting through the local Iroh provider (id iroh_inline) the
  table holds the route but the get_data provider lookup dispatches to no
  provider. -/
theorem insert_route_binds_provider_type (r : Route)
    (h : r.provider_id ≠ r.provider_type.str) :
    (routeRow r).provider_id = r.provider_type.str ∧
    (rowToRoute (routeRow r)).provider_id ≠ r.provider_id ∧
    (ingestInline1.db.filter (fun q => q.cid = some cDup)).length = 1 ∧
    getDataDispatch [PKind.irohInline] ingestInline1.db cDup = [] := by
  refine ⟨rfl, ?_, by decide, by decide⟩
  simp only [rowToRoute, routeRow]
  exact Ne.symm h

/-- C4, witness at the Azure route whose provider_id blobs differs from its
  provider_type string azure. -/
theorem insert_route_binds_provider_type_witness :
    (routeRow routeAz).provider_id = "azure" ∧
    (rowToRoute (routeRow routeAz)).provider_id ≠ "blobs" :=
  ⟨(insert_route_binds_provider_type routeAz (by decide)).1,
   (insert_route_binds_provider_type routeAz (by decide)).2.1⟩

/-- C5: list_provider_stubs does not filter on cid IS NULL, so after both
  stubs of the provider are promoted with complete_stub (all rows now carry
  a cid) the listing still returns them both, where the claim expects an
  empty stub list. -/
theorem list_provider_stubs_returns_completed_rows :
    insertStub [] stubU1 = .ok [stubRow stubU1] ∧
    insertStub [stubRow stubU1] stubU2 = .ok dbStubs2 ∧
    completeStub dbStubs2 routeU1 =
      .ok [completedRow (stubRow stubU1) routeU1, stubRow stubU2] ∧
    completeStub [completedRow (stubRow stubU1) routeU1, stubRow stubU2] routeU2 =
      .ok dbDone2 ∧
    dbDone2.all (fun q => q.cid.isSome) = true ∧
    (listProviderStubs dbDone2 "blobs" (.createdAt .desc) 0 10000).map
      RouteStub.id = ["s1", "s2"] := by
  refine ⟨by decide, by decide, by decide, by decide, by decide, by decide⟩

/-- C6: the ORDER BY clauses of the list operations bind the ordering
  expression as a statement parameter, a constant, so requesting size
  ascending returns the provider's completed routes in table order with
  sizes 5 then 3, not sorted. -/
theorem order_by_parameter_has_no_ordering_effect :
    (listProviderRoutes dbDone2 "blobs" (.size .asc) 0 (-1)).map Route.size =
      [5, 3] ∧
    ¬ List.Sorted (· ≤ ·)
      ((listProviderRoutes dbDone2 "blobs" (.size .asc) 0 (-1)).map Route.size) := by
  exact ⟨by decide, by decide⟩

/-- C8, counterexample: the CID returned for an empty POST body is not the
  string literal of the claim (that literal decodes to a sha2-256
  multihash, code 0x12, while the handler wraps BLAKE3 with code 0x1e). -/
theorem empty_ingest_cid_not_spec_literal :
    (createData [PKind.irohInline] [] none [] sgW fidW 0).response.map
      CreateDataResponse.cid ≠
    .ok "bafkreidldj5fuhx4lzhftqhrec7nirpo3gcrwmabrincf6dsrbtbxyhgvi" := by
  decide

/-- C8, amended: POST /v1/data with an empty body and no Content-Type
  succeeds, and the response cid is the v1 CID with codec 0x55 whose
  multihash has code 0x1e and digest BLAKE3 of the empty input, rendering
  as bafkr4ifpcne3t5pzugtkaqcn5i3nzskjtpfslsnnyejlpte2spfoihzsmi. -/
theorem empty_ingest_cid_value :
    (createData [PKind.irohInline] [] none [] sgW fidW 0).response = .ok
      { cid := "bafkr4ifpcne3t5pzugtkaqcn5i3nzskjtpfslsnnyejlpte2spfoihzsmi",
        size := 0,
        location := "/v1/data/bafkr4ifpcne3t5pzugtkaqcn5i3nzskjtpfslsnnyejlpte2spfoihzsmi" } ∧
    ingestCid .raw [] =
      { codec := 0x55, mhCode := 0x1e,
        digest := [0xaf, 0x13, 0x49, 0xb9, 0xf5, 0xf9, 0xa1, 0xa6,
          0xa0, 0x40, 0x4d, 0xea, 0x36, 0xdc, 0xc9, 0x49,
          0x9b, 0xcb, 0x25, 0xc9, 0xad, 0xc1, 0x12, 0xb7,
          0xcc, 0x9a, 0x93, 0xca, 0xe4, 0x1f, 0x32, 0x62] } := by
  exact ⟨by decide, by decide⟩

/-- C9: the list_routes handler unwraps Direction::from_str of the direction
  query parameter; a lowercase asc makes from_str return an error, which the
  unwrap turns into a panic, while ASC, DESC and an absent parameter (which
  defaults to DESC) parse successfully. -/
theorem list_routes_direction_parse :
    listRoutesDirection (some "asc") = .error "Invalid direction: asc" ∧
    listRoutesDirection none = .ok .desc ∧
    listRoutesDirection (some "ASC") = .ok .asc ∧
    listRoutesDirection (some "DESC") = .ok .desc :=
  ⟨rfl, rfl, rfl, rfl⟩

/-- C10: every RouteStub read back through list_provider_stubs has size None
  and codec None, whatever insert_stub stored for the row, because
  RouteStub::from_sql_row discards both columns. -/
theorem stub_read_back_loses_size_and_codec (db : List SqlRow) (pid : String)
    (ob : OrderBy) (off lim : Int) (s : RouteStub)
    (h : s ∈ listProviderStubs db pid ob off lim) :
    s.size = none ∧ s.multicodec = none := by
  unfold listProviderStubs at h
  obtain ⟨q, hq, rfl⟩ := List.mem_map.mp h
  exact ⟨rfl, rfl⟩

/-- C10, witness: a stub stored with size 5 and codec raw reads back with
  neither. -/
theorem stub_read_back_loses_size_and_codec_witness :
    (rowToStub (stubRow stubU1)).size = none ∧
    (rowToStub (stubRow stubU1)).multicodec = none :=
  stub_read_back_loses_size_and_codec dbStubs2 "blobs" (.size .asc) 0 (-1) _
    (by decide)

/-! ### Supporting lemmas for the dispatch-eligibility theorem (C7). -/

/-- A provider whose iroh-typed filters are satisfied is eligible: the Azure
  container filter matches everything and the Iroh filters ask exactly for
  multihash code 0x1e. -/
theorem eligible_of_type (p : PKind) (c : CidV)
    (h : p.providerType = PT.iroh → c.mhCode = 0x1e) :
    p.eligible c = true := by
  cases p with
  | azureContainer a ct w => rfl
  | irohRemote ap =>
      have h2 := h rfl
      simp [PKind.eligible, PKind.cidFilter, CidFilter.isMatch,
        CodeFilter.isMatch, h2]
  | irohInline =>
      have h2 := h rfl
      simp [PKind.eligible, PKind.cidFilter, CidFilter.isMatch,
        CodeFilter.isMatch, h2]

/-- Conversely, an iroh-typed provider is eligible only for BLAKE3 CIDs. -/
theorem mh_of_eligible_iroh (p : PKind) (c : CidV)
    (ht : p.providerType = PT.iroh) (he : p.eligible c = true) :
    c.mhCode = 0x1e := by
  cases p <;>
    simp_all [PKind.providerType, PKind.eligible, PKind.cidFilter,
      CidFilter.isMatch, CodeFilter.isMatch]

/-- Every route routes_for_cid returns originates from a stored row with
  that CID and the same provider type. -/
theorem routesForCid_origin (db : List SqlRow) (c : CidV) :
    ∀ r ∈ routesForCid db c,
      ∃ q ∈ db, q.cid = some c ∧ q.provider_type = r.provider_type := by
  intro r hr
  unfold routesForCid at hr
  obtain ⟨q, hq, rfl⟩ := List.mem_map.mp hr
  have hq2 := List.mem_of_mem_take hq
  refine ⟨q, (List.mem_filter.mp hq2).1, ?_, rfl⟩
  simpa using (List.mem_filter.mp hq2).2

/-- The get_data dispatch loop only reaches providers that are eligible for
  the CID, provided every candidate route of an iroh-typed provider carries
  a BLAKE3 CID. -/
theorem dispatchLoop_eligible (ps : List PKind) (c : CidV) :
    ∀ routes : List Route,
      (∀ r ∈ routes, r.provider_type = PT.iroh → c.mhCode = 0x1e) →
      ∀ p ∈ getDataDispatchLoop ps routes, p.eligible c = true := by
  intro routes
  induction routes with
  | nil => intro _ p hp; simp [getDataDispatchLoop] at hp
  | cons r rest ih =>
      intro hr p hp
      unfold getDataDispatchLoop at hp
      cases hfind : ps.find? (fun p =>
          r.provider_id = p.providerId && r.provider_type = p.providerType) with
      | none =>
          rw [hfind] at hp
          exact ih (fun r2 h2 => hr r2 (List.mem_cons_of_mem _ h2)) p hp
      | some p0 =>
          rw [hfind] at hp
          dsimp only at hp
          have hpred := List.find?_some hfind
          have hpt : r.provider_type = p0.providerType := by
            simp only [Bool.and_eq_true, decide_eq_true_eq] at hpred
            exact hpred.2
          cases hres : p0.hasRouteResolver with
          | false =>
              rw [hres] at hp
              simp at hp
              exact ih (fun r2 h2 => hr r2 (List.mem_cons_of_mem _ h2)) p hp
          | true =>
              rw [hres] at hp
              simp at hp
              subst hp
              apply eligible_of_type
              intro ht
              exact hr r (List.mem_cons_self _ _) (by rw [hpt, ht])

/-- get_data dispatches only to eligible providers on invariant-satisfying
  tables. -/
theorem getDataDispatch_eligible (ps : List PKind) (db : List SqlRow) (c : CidV)
    (hInv : irohRowsBlake3 db) :
    ∀ p ∈ getDataDispatch ps db c, p.eligible c = true := by
  apply dispatchLoop_eligible
  intro r hr ht
  obtain ⟨q, hq, hcid, hpt⟩ := routesForCid_origin db c r hr
  exact hInv q hq (hpt.trans ht) c hcid

/-- Appending a good row preserves the invariant. -/
theorem inv_append (db : List SqlRow) (q : SqlRow)
    (h : irohRowsBlake3 db) (hq : rowOk q) : irohRowsBlake3 (db ++ [q]) := by
  intro q2 hq2
  rcases List.mem_append.mp hq2 with h2 | h2
  · exact h q2 h2
  · rw [List.mem_singleton.mp h2]; exact hq

/-- insert_route preserves the invariant when the inserted route satisfies
  the row predicate. -/
theorem insertRoute_inv (db : List SqlRow) (r : Route) (db' : List SqlRow)
    (h : insertRoute db r = .ok db') (hInv : irohRowsBlake3 db)
    (hr : r.provider_type = PT.iroh → r.cid.mhCode = 0x1e) :
    irohRowsBlake3 db' := by
  unfold insertRoute at h
  split at h
  · cases h
  · cases h
    apply inv_append _ _ hInv
    intro ht c hc
    have h2 : some r.cid = some c := hc
    cases h2
    exact hr ht

/-- insert_stub preserves the invariant (the stored row has NULL cid). -/
theorem insertStub_inv (db : List SqlRow) (s : RouteStub) (db' : List SqlRow)
    (h : insertStub db s = .ok db') (hInv : irohRowsBlake3 db) :
    irohRowsBlake3 db' := by
  unfold insertStub at h
  split at h
  · cases h
  · cases h
    apply inv_append _ _ hInv
    intro ht c hc
    cases hc

/-- complete_stub preserves the invariant when the completing route carries
  a BLAKE3 CID. -/
theorem completeStub_inv (db : List SqlRow) (r : Route) (db' : List SqlRow)
    (h : completeStub db r = .ok db') (hInv : irohRowsBlake3 db)
    (hr : r.cid.mhCode = 0x1e) : irohRowsBlake3 db' := by
  unfold completeStub at h
  dsimp only at h
  split at h
  · cases h
  · cases h
    intro q2 hq2
    obtain ⟨q, hq, hfq⟩ := List.mem_map.mp hq2
    by_cases hid : q.id = r.id
    · rw [if_pos hid] at hfq
      rw [← hfq]
      intro _ c hc
      have h2 : some r.cid = some c := hc
      cases h2
      exact hr
    · rw [if_neg hid] at hfq
      rw [← hfq]
      exact hInv q hq

/-- The ingestion insert loop preserves the invariant when every attempted
  provider admits only BLAKE3 CIDs under the iroh type. -/
theorem ingestInsertLoop_inv (signer : Signer) (now : Nat) (c : CidV)
    (bodyLen : Nat) (freshIds : Nat → String) :
    ∀ (outcome : List (PKind × Except String Unit)) (i : Nat) (db : List SqlRow),
      irohRowsBlake3 db →
      (∀ pr ∈ outcome, (pr.1).providerType = PT.iroh → c.mhCode = 0x1e) →
      irohRowsBlake3
        (ingestInsertLoop signer now c bodyLen freshIds outcome i db).2 := by
  intro outcome
  induction outcome with
  | nil => intro i db hInv _; simpa [ingestInsertLoop] using hInv
  | cons pr rest ih =>
      intro i db hInv hprs
      obtain ⟨p, res⟩ := pr
      cases res with
      | error e =>
          rw [ingestInsertLoop]
          exact ih (i + 1) db hInv
            (fun pr2 h2 => hprs pr2 (List.mem_cons_of_mem _ h2))
      | ok u =>
          rw [ingestInsertLoop]
          simp only [RouteBuilder.build, signRoute]
          cases hins : insertRoute db
              { id := freshIds i, created_at := now, verified_at := now,
                provider_id := p.providerId, provider_type := p.providerType,
                url := c.str, cid := c, size := bodyLen, multicodec := .raw,
                signature := [], creator := signer.publicKey } with
          | error e => simpa using hInv
          | ok db2 =>
              have hInv2 : irohRowsBlake3 db2 := by
                apply insertRoute_inv db _ db2 hins hInv
                intro ht
                exact hprs (p, .ok u) (List.mem_cons_self _ _) ht
              simpa using ih (i + 1) db2 hInv2
                (fun pr2 h2 => hprs pr2 (List.mem_cons_of_mem _ h2))

/-- Attempted writers are eligible writers. -/
theorem mem_ingestAttempts (ps : List PKind) (db : List SqlRow) (c : CidV)
    (p : PKind) (h : p ∈ ingestAttempts ps db c) :
    p.eligible c = true ∧ p.hasBlobWriter = true := by
  unfold ingestAttempts at h
  have h2 := (List.mem_filter.mp h).1
  unfold ingestWriters at h2
  have h3 := (List.mem_filter.mp h2).2
  simpa [Bool.and_eq_true] using h3

/-- create_data preserves the invariant. -/
theorem createData_inv (ps : List PKind) (db : List SqlRow)
    (contentType : Option String) (body : List Nat) (signer : Signer)
    (freshIds : Nat → String) (now : Nat) (hInv : irohRowsBlake3 db) :
    irohRowsBlake3 (createData ps db contentType body signer freshIds now).db := by
  unfold createData
  cases hct : contentTypeCodec contentType with
  | none => simpa using hInv
  | some codec =>
      dsimp only
      split
      · simpa using hInv
      · dsimp only
        apply ingestInsertLoop_inv
        · exact hInv
        · intro pr hpr ht
          obtain ⟨p, hp, hpeq⟩ := List.mem_map.mp hpr
          have he := (mem_ingestAttempts ps db _ p hp).1
          rw [← hpeq] at ht
          exact mh_of_eligible_iroh p _ ht he

/-- A successful build returns the builder's CID. -/
theorem build_ok_cid (b : RouteBuilder) (signer : Signer) (now : Nat)
    (route : Route) (h : b.build signer now = .ok route) :
    b.cid = some route.cid := by
  rcases b with ⟨id, pid, pt, cid, size, url, mc⟩
  cases cid <;> cases size <;> cases url <;> cases mc <;>
    simp [RouteBuilder.build, signRoute] at h
  subst h
  rfl

/-- A route built by the hashing phase carries a BLAKE3 CID. -/
theorem hashStubRoute_mh (content : String → List Nat) (signer : Signer)
    (now : Nat) (stub : RouteStub) (route : Route)
    (h : hashStubRoute content signer now stub = .ok route) :
    route.cid.mhCode = 0x1e := by
  unfold hashStubRoute at h
  have h2 := build_ok_cid _ signer now route h
  have h3 : some (blake3HashToCid (blake3Hash
      (if stub.size = some 0 then [] else content stub.url)) .raw) =
      some route.cid := h2
  have h4 := Option.some.inj h3
  rw [← h4]
  rfl

/-- The discovery loop preserves the invariant. -/
theorem discoverLoop_inv (account container : String) (ids : Nat → String)
    (now : Nat) :
    ∀ (blobs : List (String × Nat)) (i : Nat) (db : List SqlRow),
      irohRowsBlake3 db →
      irohRowsBlake3 (discoverLoop account container ids now blobs i db) := by
  intro blobs
  induction blobs with
  | nil => intro i db h; simpa [discoverLoop] using h
  | cons b rest ih =>
      intro i db h
      obtain ⟨name, size⟩ := b
      rw [discoverLoop]
      split
      · simp only [RouteBuilder.buildStub]
        cases hins : insertStub db
            { id := ids (2 * i + 1), provider_id := container,
              provider_type := .azure, created_at := now, verified_at := now,
              multicodec := some .raw, size := some size,
              url := blobUrl account container name } with
        | error e => simpa using h
        | ok db2 =>
            have h2 := insertStub_inv db _ db2 hins h
            simpa using ih (i + 1) db2 h2
      · exact ih (i + 1) db h

/-- The hashing loop preserves the invariant. -/
theorem hashLoop_inv (content : String → List Nat) (signer : Signer) (now : Nat) :
    ∀ (stubs : List RouteStub) (db : List SqlRow),
      irohRowsBlake3 db →
      irohRowsBlake3 (hashLoop content signer now stubs db) := by
  intro stubs
  induction stubs with
  | nil => intro db h; simpa [hashLoop] using h
  | cons stub rest ih =>
      intro db h
      rw [hashLoop]
      cases hb : hashStubRoute content signer now stub with
      | error e => simpa using h
      | ok route =>
          dsimp only
          have hmh := hashStubRoute_mh content signer now stub route hb
          cases hcs : completeStub db route with
          | error e => simpa using h
          | ok db2 =>
              have h2 := completeStub_inv db route db2 hcs h hmh
              simpa using ih db2 h2

/-- Every reachable table state satisfies the invariant. -/
theorem reach_inv (ps : List PKind) (db : List SqlRow) (h : Reach ps db) :
    irohRowsBlake3 db := by
  induction h with
  | nil => intro q hq; cases hq
  | ingest db2 ct body signer freshIds now _ ih =>
      exact createData_inv ps db2 ct body signer freshIds now ih
  | discover db2 p hp blobs ids now _ ih =>
      cases p with
      | azureContainer a ct w =>
          exact discoverLoop_inv a ct ids now blobs 0 db2 ih
      | irohRemote ap => simpa [reindexDiscover] using ih
      | irohInline => simpa [reindexDiscover] using ih
  | hash db2 p hp content signer now _ ih =>
      cases p with
      | azureContainer a ct w => exact hashLoop_inv content signer now _ db2 ih
      | irohRemote ap => simpa [reindexHash] using ih
      | irohInline => simpa [reindexHash] using ih

/-- C7: in every system state reachable from the empty table by ingestions
  and reindex cycles, the API dispatches a get_bytes read of a CID only to
  providers whose filter matches that CID, and create_data dispatches a
  put_blob write only to providers whose filter matches the computed CID:
  an ineligible provider is never dispatched to, on the resolve path and on
  the ingestion path alike. -/
theorem api_dispatch_respects_cid_filter (ps : List PKind) (db : List SqlRow)
    (h : Reach ps db) :
    (∀ c p, p ∈ getDataDispatch ps db c → p.eligible c = true) ∧
    (∀ contentType body signer freshIds now codec p,
      contentTypeCodec contentType = some codec →
      p ∈ (createData ps db contentType body signer freshIds now).puts →
      p.eligible (ingestCid codec body) = true) := by
  constructor
  · intro c p hp
    exact getDataDispatch_eligible ps db c (reach_inv ps db h) p hp
  · intro ct body signer freshIds now codec p hct hp
    unfold createData at hp
    rw [hct] at hp
    dsimp only at hp
    by_cases hw : (ingestWriters ps (ingestCid codec body)).isEmpty
    · rw [if_pos hw] at hp
      simp at hp
    · rw [if_neg hw] at hp
      dsimp only at hp
      exact (mem_ingestAttempts ps db _ p hp).1

/-- C7, witness: at the table reached by one ingestion of dupBody through
  the remote Iroh provider, the dispatched reader is eligible; and on the
  empty table the dispatched writer for dupBody is eligible. -/
theorem api_dispatch_respects_cid_filter_witness :
    (PKind.irohRemote true).eligible cDup = true ∧
    (PKind.irohInline).eligible (ingestCid .raw dupBody) = true :=
  ⟨(api_dispatch_respects_cid_filter [PKind.irohRemote true] ingestRemote1.db
      (Reach.ingest [] none dupBody sgW fidW 0 Reach.nil)).1 cDup
      (PKind.irohRemote true) (by decide),
   (api_dispatch_respects_cid_filter [PKind.irohInline] [] Reach.nil).2
      none dupBody sgW fidW 0 .raw PKind.irohInline rfl (by decide)⟩

end CidRouter
